import Mathlib

/-!
Shallow embedding of the pogo feed-regeneration pipeline
(`generate_rss.go`): the configuration loader, the episode metadata
extractor, the feed builder, the feed encoders and the watch loop, with
theorems checking the natural-language specification against it.

Strings are modelled on `List Char` with structural recursion so that every
definition evaluates by kernel reduction.
-/

namespace Pogo

/-- Tests whether the first list is an initial segment of the second
(helper for substring tests, mirroring Go's byte-wise matching). -/
def headMatches : List Char → List Char → Bool
  | [], _ => true
  | _ :: _, [] => false
  | a :: as, b :: bs => a == b && headMatches as bs

/-- Splits a character list on a single separator character, keeping empty
segments, exactly as Go's `strings.Split` does for a one-character
separator: `splitOnChar '_' "a__b" = ["a", "", "b"]`. -/
def splitOnChar (sep : Char) : List Char → List (List Char)
  | [] => [[]]
  | c :: cs =>
    match splitOnChar sep cs with
    | [] => [[]]
    | h :: t => if c == sep then [] :: h :: t else (c :: h) :: t

/-- Go's `strings.Split(s, sep)` for a one-character separator. -/
def goSplit (s : String) (sep : Char) : List String :=
  (splitOnChar sep s.data).map String.mk

/-- Go's `strings.Contains(name, ".mp3")`: the eligibility marker test of
`GenerateRss` (line 97 of generate_rss.go). -/
def containsMp3 : List Char → Bool
  | '.' :: 'm' :: 'p' :: '3' :: _ => true
  | _ :: rest => containsMp3 rest
  | [] => false

/-- String-level wrapper of `containsMp3`. -/
def containsMp3Str (name : String) : Bool :=
  containsMp3 name.data

/-- The replacement text `_SHOWNOTES.md` of line 101 of generate_rss.go. -/
def showRep : List Char := "_SHOWNOTES.md".data

/-- Go's `strings.Replace(name, ".mp3", "_SHOWNOTES.md", n)`: replaces at
most `n` occurrences of `.mp3`, scanning left to right. -/
def replaceMp3 : Nat → List Char → List Char
  | _, [] => []
  | 0, l => l
  | n + 1, '.' :: 'm' :: 'p' :: '3' :: rest => showRep ++ replaceMp3 n rest
  | n + 1, c :: rest => c :: replaceMp3 (n + 1) rest

/-- The shownotes path of line 101 of generate_rss.go:
`"podcasts/" + strings.Replace(file.Name(), ".mp3", "_SHOWNOTES.md", 2)`. -/
def shownotesPath (name : String) : String :=
  "podcasts/" ++ String.mk (replaceMp3 2 name.data)

/-- Decimal value of a digit list (used by the date parser). -/
def digitsVal (l : List Char) : Nat :=
  l.foldl (fun a c => a * 10 + (c.toNat - 48)) 0

/-- Parses a string of exactly `k` decimal digits, as Go's fixed-width
numeric fields of `time.Parse("2006-01-02", _)` require. -/
def parseFixed (k : Nat) (s : String) : Option Nat :=
  if (s.data.length == k) && s.data.all (fun c => c.isDigit) then
    some (digitsVal s.data)
  else
    none

/-- A calendar date as produced by Go's `time.Parse("2006-01-02", _)`. -/
structure Date where
  year : Nat
  month : Nat
  day : Nat
deriving DecidableEq

/-- Gregorian leap-year test, as Go's `time` package applies when checking
the day-of-month range. -/
def isLeap (y : Nat) : Bool :=
  (y % 4 == 0) && ((y % 100 != 0) || (y % 400 == 0))

/-- Number of days of month `m` of year `y`. -/
def daysInMonth (y m : Nat) : Nat :=
  if m == 2 then (if isLeap y then 29 else 28)
  else if (m == 4) || (m == 6) || (m == 9) || (m == 11) then 30
  else 31

/-- Go's `time.Parse("2006-01-02", s)` restricted to the calendar date it
yields: four-digit year, two-digit month and day separated by `-`, month
in 1..12 and day in range for the month; anything else is a parse error. -/
def parseDate (s : String) : Option Date :=
  match goSplit s '-' with
  | [ys, ms, ds] =>
    match parseFixed 4 ys, parseFixed 2 ms, parseFixed 2 ds with
    | some y, some m, some d =>
      if 1 ≤ m ∧ m ≤ 12 ∧ 1 ≤ d ∧ d ≤ daysInMonth y m then
        some ⟨y, m, d⟩
      else
        none
    | _, _, _ => none
  | _ => none

/-- The `Config` struct of generate_rss.go (lines 22–29), as decoded from
`assets/config/config.json`. -/
structure Config where
  Name : String
  Host : String
  Email : String
  Description : String
  Image : String
  PodcastUrl : String
deriving DecidableEq

/-- One entry of the `podcasts` directory listing: the `os.FileInfo` data
`GenerateRss` consults (`file.Name()` and `file.Size()`). -/
structure FileEntry where
  name : String
  size : Nat
deriving DecidableEq

/-- The fields of a `feeds.Item` that `GenerateRss` populates
(lines 111–120): title, link (href, length, type), enclosure, description,
author and creation date. -/
structure Item where
  Title : String
  LinkHref : String
  LinkLength : String
  LinkType : String
  EnclosureUrl : String
  EnclosureLength : String
  EnclosureType : String
  Description : String
  AuthorName : String
  AuthorEmail : String
  Created : Date
deriving DecidableEq

/-- The feed model: the fields of the `feeds.Feed` that `GenerateRss`
builds (lines 87–94) plus the items added by the loop. The creation
instant (`time.Now()` of line 80) is modelled as an abstract clock value. -/
structure Feed where
  Title : String
  LinkHref : String
  Description : String
  AuthorName : String
  AuthorEmail : String
  Created : Nat
  ImageUrl : String
  Items : List Item
deriving DecidableEq

/-- The ways a triggered rebuild can fail, following the failure sites of
`GenerateRss`: `panic` on an unreadable config (line 72), `panic` on an
undecodable config (line 77), `log.Fatal` on an unreadable directory
(line 83), the index-out-of-range panic of `s[1]` for an eligible name
with no underscore (line 99), `log.Fatal` on an unreadable shownotes file
(line 103) and `log.Fatal` on an unparsable date (line 107). -/
inductive RebuildError where
  | configUnreadable
  | configMalformed
  | directoryUnreadable
  | indexOutOfRange (name : String)
  | shownotesUnreadable (name : String)
  | dateInvalid (s : String)
deriving DecidableEq

/-- Modelled from the spec: the configuration file's bytes together with
the JSON decoder (`ioutil.ReadFile` + `json.Unmarshal`, the decoder living
in the standard library rather than in src/) are abstracted to their
outcome — the file is unreadable, readable but not decodable into the
expected shape, or decodes to a `Config` value. -/
inductive ConfigData where
  | absent
  | malformed (raw : String)
  | wellFormed (c : Config)
deriving DecidableEq

/-- The file-system state a rebuild observes and updates: the
configuration file, the `podcasts` directory listing as `ioutil.ReadDir`
returns it (`none` when unreadable), the readable files by path, and the
currently published `assets/web/feed.rss` and `assets/web/feed.json`. -/
structure FS where
  configFile : ConfigData
  podcastDir : Option (List FileEntry)
  readPodcastFile : String → Option String
  feedRss : String
  feedJson : String

/-- The date-carrying segment of a filename: `s[0]` of line 98 of
generate_rss.go, the text before the first underscore. -/
def dateStrOf (name : String) : String :=
  (goSplit name '_').headD ""

/-- The title the extractor derives from a filename: `t[0]` of lines
98–100 of generate_rss.go, the segment strictly between the first and
second underscore, truncated at its first `.`. -/
def derivedTitle (name : String) : String :=
  match (goSplit name '_').get? 1 with
  | none => ""
  | some s1 => (goSplit s1 '.').headD ""

/-- The episode record built at lines 109–120 of generate_rss.go for an
eligible file: derived title and date, the shownotes contents as
description, the `<base>/download/<name>` link, the decimal file size as
length, the constant `audio/mpeg` type and the configured author. -/
def mkItem (cfg : Config) (f : FileEntry) (notes : String) (date : Date) : Item :=
  { Title := derivedTitle f.name
    LinkHref := cfg.PodcastUrl ++ "/download/" ++ f.name
    LinkLength := Nat.repr f.size
    LinkType := "audio/mpeg"
    EnclosureUrl := cfg.PodcastUrl ++ "/download/" ++ f.name
    EnclosureLength := Nat.repr f.size
    EnclosureType := "audio/mpeg"
    Description := notes
    AuthorName := cfg.Host
    AuthorEmail := cfg.Email
    Created := date }

/-- The per-entry step of the extractor loop (lines 96–122 of
generate_rss.go): skip names without the `.mp3` marker; otherwise panic if
the name has no underscore (`s[1]`), fatal if the shownotes file cannot be
read, fatal if the date part does not parse, and else construct exactly
one episode record. -/
def processFile (cfg : Config) (readF : String → Option String) (f : FileEntry) :
    Except RebuildError (Option Item) :=
  if containsMp3Str f.name then
    match (goSplit f.name '_').get? 1 with
    | none => .error (.indexOutOfRange f.name)
    | some _ =>
      match readF (shownotesPath f.name) with
      | none => .error (.shownotesUnreadable f.name)
      | some notes =>
        match parseDate (dateStrOf f.name) with
        | none => .error (.dateInvalid (dateStrOf f.name))
        | some date => .ok (some (mkItem cfg f notes date))
  else
    .ok none

/-- The whole extractor loop over the directory listing, stopping at the
first failing entry just as the fatal calls of generate_rss.go do. -/
def buildItems (cfg : Config) (readF : String → Option String) :
    List FileEntry → Except RebuildError (List Item)
  | [] => .ok []
  | f :: fs =>
    match processFile cfg readF f with
    | .error e => .error e
    | .ok none => buildItems cfg readF fs
    | .ok (some i) =>
      match buildItems cfg readF fs with
      | .error e => .error e
      | .ok items => .ok (i :: items)

/-- The feed builder (lines 86–94 of generate_rss.go plus the `feed.Add`
calls): pure assembly of the feed model from the configuration, the clock
instant and the episode records. -/
def mkFeed (cfg : Config) (now : Nat) (items : List Item) : Feed :=
  { Title := cfg.Name
    LinkHref := cfg.PodcastUrl
    Description := cfg.Description
    AuthorName := cfg.Host
    AuthorEmail := cfg.Email
    Created := now
    ImageUrl := cfg.Image
    Items := items }

/-- Modelled from the spec: the per-item fields an RSS 2.0-compatible
serialization carries (the encoder `feeds.Feed.ToRss` of
github.com/gmemstr/feeds is not in src/; §4.4 of the spec describes it as
a deterministic serialization of the feed model). -/
structure RssItemDoc where
  title : String
  link : String
  enclosureUrl : String
  enclosureLength : String
  enclosureType : String
  description : String
  authorName : String
  authorEmail : String
  pubDate : Date
deriving DecidableEq

/-- Modelled from the spec: the channel-level fields of the RSS document,
including the feed creation instant which RSS 2.0 carries as the channel
publication date. -/
structure RssDoc where
  title : String
  link : String
  description : String
  authorName : String
  authorEmail : String
  imageUrl : String
  pubDate : Nat
  items : List RssItemDoc
deriving DecidableEq

/-- Modelled from the spec: the per-item fields of the JSON-feed-compatible
document (`feeds.Feed.ToJSON`, not in src/). -/
structure JsonItemDoc where
  title : String
  url : String
  attachmentUrl : String
  attachmentLength : String
  attachmentType : String
  contentText : String
  authorName : String
  datePublished : Date
deriving DecidableEq

/-- Modelled from the spec: the top-level fields of the JSON feed document.
The JSON Feed format has no feed-level modification or creation date, so
the clock instant of the feed model does not appear here. -/
structure JsonDoc where
  version : String
  title : String
  homePage : String
  description : String
  authorName : String
  icon : String
  items : List JsonItemDoc
deriving DecidableEq

/-- Projection of an episode record into its RSS item document. -/
def rssItemDocOf (i : Item) : RssItemDoc :=
  ⟨i.Title, i.LinkHref, i.EnclosureUrl, i.EnclosureLength, i.EnclosureType,
   i.Description, i.AuthorName, i.AuthorEmail, i.Created⟩

/-- Projection of an episode record into its JSON item document. -/
def jsonItemDocOf (i : Item) : JsonItemDoc :=
  ⟨i.Title, i.LinkHref, i.EnclosureUrl, i.EnclosureLength, i.EnclosureType,
   i.Description, i.AuthorName, i.Created⟩

/-- The RSS document of a feed model. -/
def rssDocOf (m : Feed) : RssDoc :=
  ⟨m.Title, m.LinkHref, m.Description, m.AuthorName, m.AuthorEmail,
   m.ImageUrl, m.Created, m.Items.map rssItemDocOf⟩

/-- The JSON document of a feed model. -/
def jsonDocOf (m : Feed) : JsonDoc :=
  ⟨"https://jsonfeed.org/version/1", m.Title, m.LinkHref, m.Description,
   m.AuthorName, m.ImageUrl, m.Items.map jsonItemDocOf⟩

/-- Two-digit zero-padded decimal rendering. -/
def pad2 (n : Nat) : String :=
  if n < 10 then "0" ++ Nat.repr n else Nat.repr n

/-- Rendering of a date as `YYYY-MM-DD`. -/
def dateStr (d : Date) : String :=
  Nat.repr d.year ++ "-" ++ pad2 d.month ++ "-" ++ pad2 d.day

/-- Modelled from the spec: deterministic byte rendering of one RSS item. -/
def renderRssItem (i : RssItemDoc) : String :=
  "<item><title>" ++ i.title ++ "</title><link>" ++ i.link ++
  "</link><enclosure url=" ++ i.enclosureUrl ++ " length=" ++
  i.enclosureLength ++ " type=" ++ i.enclosureType ++ "><description>" ++
  i.description ++ "</description><author>" ++ i.authorEmail ++ " (" ++
  i.authorName ++ ")</author><pubDate>" ++ dateStr i.pubDate ++
  "</pubDate></item>"

/-- Modelled from the spec: deterministic byte rendering of the RSS
document; the channel publication date renders the clock instant. -/
def renderRss (d : RssDoc) : String :=
  "<rss version=2.0><channel><title>" ++ d.title ++ "</title><link>" ++
  d.link ++ "</link><description>" ++ d.description ++
  "</description><managingEditor>" ++ d.authorEmail ++ " (" ++
  d.authorName ++ ")</managingEditor><image>" ++ d.imageUrl ++
  "</image><pubDate>" ++ Nat.repr d.pubDate ++ "</pubDate>" ++
  String.join (d.items.map renderRssItem) ++ "</channel></rss>"

/-- Modelled from the spec: deterministic byte rendering of one JSON feed
item. -/
def renderJsonItem (i : JsonItemDoc) : String :=
  "\x7b\"title\":\"" ++ i.title ++ "\",\"url\":\"" ++ i.url ++
  "\",\"attachment\":\"" ++ i.attachmentUrl ++ "\",\"size\":\"" ++
  i.attachmentLength ++ "\",\"mime\":\"" ++ i.attachmentType ++
  "\",\"content_text\":\"" ++ i.contentText ++ "\",\"author\":\"" ++
  i.authorName ++ "\",\"date_published\":\"" ++ dateStr i.datePublished ++
  "\"\x7d"

/-- Modelled from the spec: deterministic byte rendering of the JSON feed
document. -/
def renderJson (d : JsonDoc) : String :=
  "\x7b\"version\":\"" ++ d.version ++ "\",\"title\":\"" ++ d.title ++
  "\",\"home_page_url\":\"" ++ d.homePage ++ "\",\"description\":\"" ++
  d.description ++ "\",\"author\":\"" ++ d.authorName ++
  "\",\"icon\":\"" ++ d.icon ++ "\",\"items\":[" ++
  String.join (d.items.map renderJsonItem) ++ "]\x7d"

/-- `feed.ToRss()` of line 126 of generate_rss.go (encoder modelled from
the spec, see `renderRss`). -/
def toRss (m : Feed) : String :=
  renderRss (rssDocOf m)

/-- `feed.ToJSON()` of line 130 of generate_rss.go (encoder modelled from
the spec, see `renderJson`). -/
def toJSON (m : Feed) : String :=
  renderJson (jsonDocOf m)

/-- The rebuild `GenerateRss` (lines 69–142 of generate_rss.go): read and
decode the configuration (panicking on failure), list the `podcasts`
directory (fatal on failure), run the extractor loop, build the feed model
and encode it both ways. On success it returns the bytes to be written to
`feed.rss` and `feed.json`; any failure aborts before either write. -/
def GenerateRss (now : Nat) (fs : FS) : Except RebuildError (String × String) :=
  match fs.configFile with
  | .absent => .error .configUnreadable
  | .malformed _ => .error .configMalformed
  | .wellFormed cfg =>
    match fs.podcastDir with
    | none => .error .directoryUnreadable
    | some files =>
      match buildItems cfg fs.readPodcastFile files with
      | .error e => .error e
      | .ok items => .ok (toRss (mkFeed cfg now items), toJSON (mkFeed cfg now items))

/-- Effect of one triggered rebuild on the file system: on success both
output files are overwritten with the encoded bytes; on failure the
process dies before the writes of lines 138 and 141 run, so the published
files keep their prior contents. -/
def applyRebuild (now : Nat) (fs : FS) : FS :=
  match GenerateRss now fs with
  | .ok (r, j) => { fs with feedRss := r, feedJson := j }
  | .error _ => fs

/-- A filesystem notification as fsnotify delivers it: `op` is the
operation bitmask (Create = 1, Write = 2, Remove = 4, Rename = 8,
Chmod = 16) and `path` the affected path. -/
structure Event where
  op : Nat
  path : String
deriving DecidableEq

/-- Outcome of running the watch loop on a finite prefix of the event
stream: either all events were consumed and the loop is still waiting, or
a rebuild failed, the process died (panic / `log.Fatal`), and the
remaining events were never received. -/
inductive WatchResult where
  | running (fs : FS)
  | terminated (fs : FS) (err : RebuildError) (remaining : List Event)

/-- The event-consuming goroutine of `watch` (lines 42–54 of
generate_rss.go): each event whose op has the Write bit set triggers a
synchronous `GenerateRss`; other events are ignored. A failing rebuild
kills the whole process, ending the loop with the later events
unprocessed. -/
def watchLoop (now : Nat) : FS → List Event → WatchResult
  | fs, [] => .running fs
  | fs, e :: rest =>
    if Nat.land e.op 2 = 2 then
      match GenerateRss now fs with
      | .ok (r, j) => watchLoop now { fs with feedRss := r, feedJson := j } rest
      | .error err => .terminated fs err rest
    else
      watchLoop now fs rest

/-- The filename contract as §3 of the spec states it: extension `.mp3`
and shape `<date>_<title>.mp3` with the date part parsing as
`YYYY-MM-DD`. This definition follows the spec's words (not the source)
and is compared against the source's eligibility test. -/
def satisfiesContract (name : String) : Bool :=
  headMatches ['3', 'p', 'm', '.'] name.data.reverse &&
  match goSplit name '_' with
  | d :: rest => (parseDate d).isSome && !rest.isEmpty
  | [] => false

/-- The feed model a successful rebuild builds (and the default empty
model otherwise); used to state that both encoded outputs come from this
single model. -/
def builtFeed (now : Nat) (fs : FS) : Feed :=
  match fs.configFile with
  | .wellFormed cfg =>
    match fs.podcastDir with
    | some files =>
      match buildItems cfg fs.readPodcastFile files with
      | .ok items => mkFeed cfg now items
      | .error _ => mkFeed cfg now []
    | none => mkFeed cfg now []
  | _ => mkFeed ⟨"", "", "", "", "", ""⟩ now []

/-- The field-by-field agreement of the two encoded documents of a feed
model: title, link, author and the episode sequence (count, order, titles,
dates, links, lengths and descriptions) coincide. -/
def docsAgree (m : Feed) : Prop :=
  (rssDocOf m).title = (jsonDocOf m).title ∧
  (rssDocOf m).link = (jsonDocOf m).homePage ∧
  (rssDocOf m).authorName = (jsonDocOf m).authorName ∧
  (rssDocOf m).items.length = (jsonDocOf m).items.length ∧
  (rssDocOf m).items.map RssItemDoc.title = (jsonDocOf m).items.map JsonItemDoc.title ∧
  (rssDocOf m).items.map RssItemDoc.pubDate = (jsonDocOf m).items.map JsonItemDoc.datePublished ∧
  (rssDocOf m).items.map RssItemDoc.link = (jsonDocOf m).items.map JsonItemDoc.url ∧
  (rssDocOf m).items.map RssItemDoc.enclosureLength = (jsonDocOf m).items.map JsonItemDoc.attachmentLength ∧
  (rssDocOf m).items.map RssItemDoc.description = (jsonDocOf m).items.map JsonItemDoc.contentText

/-- Decidable equality of rebuild outcomes, so that concrete runs of the
pipeline can be checked by `decide`. -/
instance exceptDecEq {ε α : Type} [DecidableEq ε] [DecidableEq α] :
    DecidableEq (Except ε α)
  | .ok a, .ok b =>
    match decEq a b with
    | isTrue h => isTrue (by rw [h])
    | isFalse h => isFalse (fun hh => h (by cases hh; rfl))
  | .ok _, .error _ => isFalse (fun hh => by cases hh)
  | .error _, .ok _ => isFalse (fun hh => by cases hh)
  | .error a, .error b =>
    match decEq a b with
    | isTrue h => isTrue (by rw [h])
    | isFalse h => isFalse (fun hh => h (by cases hh; rfl))

/-- Whether a rebuild outcome published a feed. -/
def rebuildOk : Except RebuildError (String × String) → Bool
  | .ok _ => true
  | .error _ => false

/-- The `feed.rss` bytes of a successful rebuild outcome (empty on
failure); lets concrete witnesses name the produced bytes. -/
def okFst : Except RebuildError (String × String) → String
  | .ok (r, _) => r
  | .error _ => ""

/-- The `feed.json` bytes of a successful rebuild outcome (empty on
failure). -/
def okSnd : Except RebuildError (String × String) → String
  | .ok (_, j) => j
  | .error _ => ""

/-- Whether a per-entry extractor outcome constructed an episode record. -/
def producesRecord : Except RebuildError (Option Item) → Bool
  | .ok (some _) => true
  | _ => false

/-- The title of the record a per-entry extractor outcome constructed
(empty when none was). -/
def titleOfR : Except RebuildError (Option Item) → String
  | .ok (some i) => i.Title
  | _ => ""

/-- The record a per-entry extractor outcome constructed (a default item
when none was); lets concrete witnesses name the record. -/
def itemOfR : Except RebuildError (Option Item) → Item
  | .ok (some i) => i
  | _ => ⟨"", "", "", "", "", "", "", "", "", "", ⟨0, 0, 0⟩⟩

/-- The records of an extractor-loop outcome (empty on failure); lets
concrete witnesses name the produced record list. -/
def itemsOfR : Except RebuildError (List Item) → List Item
  | .ok l => l
  | .error _ => []

/-- A concrete configuration (the §8 scenario of the spec). -/
def cfgW : Config := ⟨"Show", "Alice", "a@x.com", "Desc", "img", "https://x.com"⟩

/-- A concrete readable-files map: only the Pilot episode's shownotes. -/
def readPilot : String → Option String := fun s =>
  if s = "podcasts/2024-01-15_Pilot_SHOWNOTES.md" then some "Welcome" else none

/-- A concrete state with one valid episode and previously published
outputs. -/
def fsPilot : FS :=
  ⟨.wellFormed cfgW, some [⟨"2024-01-15_Pilot.mp3", 1000⟩], readPilot, "OLD", "OLDJ"⟩

/-- A readable-files map providing shownotes for the `.mp3.bak` entry. -/
def readBak : String → Option String := fun s =>
  if s = "podcasts/2024-01-15_Ep_SHOWNOTES.md.bak" then some "n" else none

/-- A readable-files map providing shownotes for the multi-underscore
entry. -/
def readMyShow : String → Option String := fun s =>
  if s = "podcasts/2024-01-15_My_Show_SHOWNOTES.md" then some "n" else none

/-- A readable-files map providing shownotes for `2024-02-02_A_B.mp3`. -/
def readAB : String → Option String := fun s =>
  if s = "podcasts/2024-02-02_A_B_SHOWNOTES.md" then some "n" else none

/-- A concrete state whose only audio file has no readable shownotes. -/
def fsNoNotes : FS :=
  ⟨.wellFormed cfgW, some [⟨"2024-05-05_Ep.mp3", 3⟩], fun _ => none, "OLD", "OLDJ"⟩

/-- A concrete state whose configuration file is unreadable. -/
def fsAbsent : FS := ⟨.absent, some [], fun _ => none, "R", "J"⟩

/-- A concrete state whose configuration file does not decode. -/
def fsMalformed : FS := ⟨.malformed "oops", some [], fun _ => none, "R", "J"⟩

/-- A concrete directory listing mixing eligible and ineligible entries. -/
def filesMix : List FileEntry :=
  [⟨"2024-01-15_Pilot.mp3", 1000⟩, ⟨"readme.txt", 3⟩, ⟨"2024-03-03_Two.mp3", 50⟩]

/-- A readable-files map with shownotes for both eligible entries of
`filesMix`. -/
def readMix : String → Option String := fun s =>
  if s = "podcasts/2024-01-15_Pilot_SHOWNOTES.md" then some "Welcome"
  else if s = "podcasts/2024-03-03_Two_SHOWNOTES.md" then some "Second"
  else none

theorem processFile_skip (cfg : Config) (readF : String → Option String)
    (f : FileEntry) (h : containsMp3Str f.name = false) :
    processFile cfg readF f = .ok none := by
  simp [processFile, h]

theorem processFile_ok_some (cfg : Config) (readF : String → Option String)
    (f : FileEntry) (i : Item) (h : processFile cfg readF f = .ok (some i)) :
    containsMp3Str f.name = true ∧
    ∃ notes date, readF (shownotesPath f.name) = some notes ∧
      parseDate (dateStrOf f.name) = some date ∧ i = mkItem cfg f notes date := by
  unfold processFile at h
  split at h
  · rename_i hc
    refine ⟨hc, ?_⟩
    split at h
    · exact absurd h (by simp)
    · split at h
      · exact absurd h (by simp)
      · rename_i notes hnotes
        split at h
        · exact absurd h (by simp)
        · rename_i date hdate
          exact ⟨notes, date, hnotes, hdate, by simpa using h.symm⟩
  · exact absurd h (by simp)

theorem processFile_eligible_ne_none (cfg : Config)
    (readF : String → Option String) (f : FileEntry)
    (h : containsMp3Str f.name = true) :
    processFile cfg readF f ≠ .ok none := by
  simp only [processFile, h]
  rcases (goSplit f.name '_').get? 1 with _ | s1
  · simp
  · rcases readF (shownotesPath f.name) with _ | notes
    · simp
    · rcases parseDate (dateStrOf f.name) with _ | d <;> simp

theorem buildItems_error_of_mem (cfg : Config) (readF : String → Option String)
    (files : List FileEntry) (f : FileEntry) (e : RebuildError)
    (hmem : f ∈ files) (herr : processFile cfg readF f = .error e) :
    ∃ e2, buildItems cfg readF files = .error e2 := by
  induction files with
  | nil => cases hmem
  | cons g t ih =>
    unfold buildItems
    rcases List.mem_cons.mp hmem with hfg | hft
    · subst hfg
      exact ⟨e, by simp [herr]⟩
    · rcases hg : processFile cfg readF g with e1 | oi
      · exact ⟨e1, rfl⟩
      · rcases ih hft with ⟨e2, h2⟩
        rcases oi with _ | i
        · exact ⟨e2, by simp [h2]⟩
        · exact ⟨e2, by simp [h2]⟩

theorem GenerateRss_ignores_published (now : Nat) (fs : FS) (r j : String) :
    GenerateRss now { fs with feedRss := r, feedJson := j } = GenerateRss now fs := by
  cases fs
  rfl

theorem applyRebuild_reads_same (now now2 : Nat) (fs : FS) :
    GenerateRss now2 (applyRebuild now fs) = GenerateRss now2 fs := by
  unfold applyRebuild
  rcases h : GenerateRss now fs with e | p
  · rfl
  · rcases p with ⟨a, b⟩
    exact GenerateRss_ignores_published now2 fs a b

theorem docsAgree_of (m : Feed) : docsAgree m := by
  refine ⟨rfl, rfl, rfl, by simp [rssDocOf, jsonDocOf], ?_, ?_, ?_, ?_, ?_⟩ <;>
    · simp only [rssDocOf, jsonDocOf, List.map_map]
      rfl

/-- Claim C1 counterexample: with an unreadable configuration file, the first
write event's rebuild fails and the watch loop terminates; the second write
event is left unprocessed, so the loop does not continue to receive and
process subsequent filesystem events as the claim states. -/
theorem watch_survival_counterexample :
    watchLoop 0 fsAbsent [⟨2, "assets/config/config.json"⟩, ⟨2, "podcasts/a.mp3"⟩]
      = .terminated fsAbsent .configUnreadable [⟨2, "podcasts/a.mp3"⟩] := by
  rfl

/-- Claim C1 (amended): any error raised during a triggered rebuild aborts
that rebuild before anything is published and is reported (the carried error
is what `panic` / `log.Fatal` print), but the watch loop does not survive it:
the process terminates, the published files keep their prior contents, and
every subsequent filesystem event is left unprocessed. -/
theorem rebuild_error_terminates_watch (now : Nat) (fs : FS) (e : Event)
    (rest : List Event) (err : RebuildError)
    (hw : Nat.land e.op 2 = 2) (herr : GenerateRss now fs = .error err) :
    watchLoop now fs (e :: rest) = .terminated fs err rest := by
  unfold watchLoop
  rw [if_pos hw, herr]

/-- Claim C1 amended-theorem witness at a concrete state and event list. -/
theorem rebuild_error_terminates_watch_witness :
    watchLoop 0 fsMalformed [⟨2, "assets/config/config.json"⟩, ⟨18, "x"⟩]
      = .terminated fsMalformed .configMalformed [⟨18, "x"⟩] :=
  rebuild_error_terminates_watch 0 fsMalformed ⟨2, "assets/config/config.json"⟩
    [⟨18, "x"⟩] .configMalformed (by decide) (by rfl)

set_option maxRecDepth 100000 in
/-- Claim C2 counterexample: on a fixed configuration file content and a fixed
directory snapshot, two invocations of the rebuild (observing the successive
clock instants two `time.Now()` calls yield) both succeed yet produce
different `feed.rss` bytes, because the feed model's creation instant is
embedded in the RSS serialization. -/
theorem rebuild_idempotence_counterexample :
    rebuildOk (GenerateRss 5 fsPilot) = true ∧
    rebuildOk (GenerateRss 6 fsPilot) = true ∧
    okFst (GenerateRss 5 fsPilot) ≠ okFst (GenerateRss 6 fsPilot) := by
  exact ⟨by decide, by decide, by decide⟩

/-- Claim C2 (amended): the rebuild is deterministic in the configuration, the
directory snapshot and the clock instant: rerunning it on unchanged inputs
yields byte-identical `feed.json` both times, and byte-identical `feed.rss`
exactly when the second run observes the same clock instant — the embedded
creation time is the only varying part. -/
theorem rebuild_deterministic_modulo_timestamp (now1 now2 : Nat) (fs : FS)
    (r1 j1 r2 j2 : String)
    (h1 : GenerateRss now1 fs = .ok (r1, j1))
    (h2 : GenerateRss now2 (applyRebuild now1 fs) = .ok (r2, j2)) :
    j1 = j2 ∧ (now1 = now2 → r1 = r2) := by
  rw [applyRebuild_reads_same] at h2
  rcases hcf : fs.configFile with _ | raw | cfg
  · simp [GenerateRss, hcf] at h1
  · simp [GenerateRss, hcf] at h1
  · rcases hpd : fs.podcastDir with _ | files
    · simp [GenerateRss, hcf, hpd] at h1
    · rcases hbi : buildItems cfg fs.readPodcastFile files with e | items
      · simp [GenerateRss, hcf, hpd, hbi] at h1
      · simp [GenerateRss, hcf, hpd, hbi] at h1 h2
        obtain ⟨hr1, hj1⟩ := h1
        obtain ⟨hr2, hj2⟩ := h2
        subst hr1; subst hj1; subst hr2; subst hj2
        refine ⟨rfl, ?_⟩
        intro hnn
        subst hnn
        rfl

set_option maxRecDepth 100000 in
/-- Claim C2 amended-theorem witness: two concrete sequential rebuilds at
instants 3 and 7 on the unchanged Pilot state. -/
theorem rebuild_deterministic_modulo_timestamp_witness :
    okSnd (GenerateRss 3 fsPilot) = okSnd (GenerateRss 7 (applyRebuild 3 fsPilot)) ∧
    ((3 : Nat) = 7 →
      okFst (GenerateRss 3 fsPilot) = okFst (GenerateRss 7 (applyRebuild 3 fsPilot))) :=
  rebuild_deterministic_modulo_timestamp 3 7 fsPilot
    (okFst (GenerateRss 3 fsPilot)) (okSnd (GenerateRss 3 fsPilot))
    (okFst (GenerateRss 7 (applyRebuild 3 fsPilot)))
    (okSnd (GenerateRss 7 (applyRebuild 3 fsPilot)))
    (by decide) (by decide)

/-- Claim C3 counterexample: `2024-01-15_Ep.mp3.bak` fails the filename
contract (its extension is `.bak`, not `.mp3`), yet because it contains the
`.mp3` marker and its rewritten shownotes path is readable, the extractor
constructs an episode record for it. -/
theorem contract_violation_record_counterexample :
    satisfiesContract "2024-01-15_Ep.mp3.bak" = false ∧
    producesRecord (processFile cfgW readBak ⟨"2024-01-15_Ep.mp3.bak", 7⟩) = true := by
  decide

/-- Claim C3 (amended): the extractor's eligibility gate is containment of the
`.mp3` marker, not the full filename contract: an entry whose name lacks the
marker never yields a record, but a contract-failing name that merely contains
`.mp3` (for example one with extension `.mp3.bak`) can yield one; whenever a
record is constructed, its title and date are derived deterministically from
the filename alone. -/
theorem extractor_marker_gate_and_determinism (cfg : Config)
    (readF : String → Option String) (f : FileEntry) :
    (containsMp3Str f.name = false → processFile cfg readF f = .ok none) ∧
    (∀ i, processFile cfg readF f = .ok (some i) →
      i.Title = derivedTitle f.name ∧ parseDate (dateStrOf f.name) = some i.Created) := by
  constructor
  · exact processFile_skip cfg readF f
  · intro i h
    obtain ⟨_, notes, date, _, hdate, hi⟩ := processFile_ok_some cfg readF f i h
    subst hi
    exact ⟨rfl, hdate⟩

/-- Claim C3 amended-theorem witness: the ineligible `readme.txt` yields no
record, and the record of `2024-01-15_Pilot.mp3` carries the derived title and
date of its filename. -/
theorem extractor_marker_gate_and_determinism_witness :
    processFile cfgW readPilot ⟨"readme.txt", 3⟩ = .ok none ∧
    ((itemOfR (processFile cfgW readPilot ⟨"2024-01-15_Pilot.mp3", 1000⟩)).Title
        = derivedTitle "2024-01-15_Pilot.mp3" ∧
      parseDate (dateStrOf "2024-01-15_Pilot.mp3")
        = some (itemOfR (processFile cfgW readPilot ⟨"2024-01-15_Pilot.mp3", 1000⟩)).Created) :=
  ⟨(extractor_marker_gate_and_determinism cfgW readPilot ⟨"readme.txt", 3⟩).1 (by decide),
   (extractor_marker_gate_and_determinism cfgW readPilot ⟨"2024-01-15_Pilot.mp3", 1000⟩).2
     (itemOfR (processFile cfgW readPilot ⟨"2024-01-15_Pilot.mp3", 1000⟩)) (by decide)⟩

/-- Claim C4 counterexample: for the multi-underscore filename
`2024-01-15_My_Show.mp3` the extractor constructs a record whose title is
`My`, not the full remainder `My_Show` after the first underscore that the
claim demands. -/
theorem title_full_remainder_counterexample :
    producesRecord (processFile cfgW readMyShow ⟨"2024-01-15_My_Show.mp3", 9⟩) = true ∧
    titleOfR (processFile cfgW readMyShow ⟨"2024-01-15_My_Show.mp3", 9⟩) = "My" ∧
    "My" ≠ "My_Show" := by
  decide

/-- Claim C4 (amended): the date part is the text before the first underscore,
but the title is not the entire remainder after it: the code splits the name
on every underscore and keeps only the segment between the first and second
underscore, truncated at its first `.`; for `2024-01-15_My_Show.mp3` the
derived title is `My`, with `_Show` silently dropped. -/
theorem title_second_segment (cfg : Config) (readF : String → Option String)
    (f : FileEntry) (i : Item) (h : processFile cfg readF f = .ok (some i)) :
    parseDate ((goSplit f.name '_').headD "") = some i.Created ∧
    i.Title = (match (goSplit f.name '_').get? 1 with
      | none => ""
      | some s1 => (goSplit s1 '.').headD "") := by
  obtain ⟨_, notes, date, _, hdate, hi⟩ := processFile_ok_some cfg readF f i h
  subst hi
  exact ⟨hdate, rfl⟩

/-- Claim C4 amended-theorem witness at the multi-underscore filename. -/
theorem title_second_segment_witness :
    parseDate ((goSplit "2024-01-15_My_Show.mp3" '_').headD "")
      = some (itemOfR (processFile cfgW readMyShow ⟨"2024-01-15_My_Show.mp3", 9⟩)).Created ∧
    (itemOfR (processFile cfgW readMyShow ⟨"2024-01-15_My_Show.mp3", 9⟩)).Title
      = (match (goSplit "2024-01-15_My_Show.mp3" '_').get? 1 with
        | none => ""
        | some s1 => (goSplit s1 '.').headD "") :=
  title_second_segment cfgW readMyShow ⟨"2024-01-15_My_Show.mp3", 9⟩
    (itemOfR (processFile cfgW readMyShow ⟨"2024-01-15_My_Show.mp3", 9⟩)) (by decide)

/-- Claim C5: the episode records of a successful extraction correspond
one-to-one, in order, with the `.mp3`-marked entries of the directory listing
exactly as `ioutil.ReadDir` returned it: their links and titles are the
listing-order images of those entries, and the pipeline applies no sorting of
its own. -/
theorem episodes_in_listing_order (cfg : Config) (readF : String → Option String)
    (files : List FileEntry) (items : List Item)
    (h : buildItems cfg readF files = .ok items) :
    items.map Item.LinkHref
      = (files.filter fun f => containsMp3Str f.name).map
          (fun f => cfg.PodcastUrl ++ "/download/" ++ f.name) ∧
    items.map Item.Title
      = (files.filter fun f => containsMp3Str f.name).map
          (fun f => derivedTitle f.name) := by
  induction files generalizing items with
  | nil =>
    simp only [buildItems] at h
    have : items = [] := by simpa using h.symm
    subst this
    simp
  | cons f t ih =>
    unfold buildItems at h
    rcases hp : processFile cfg readF f with e | oi
    · rw [hp] at h
      exact absurd h (by simp)
    · rw [hp] at h
      rcases oi with _ | i
      · have hc : containsMp3Str f.name = false := by
          rcases hcc : containsMp3Str f.name with _ | _
          · rfl
          · exact absurd hp (processFile_eligible_ne_none cfg readF f hcc)
        obtain ⟨h1, h2⟩ := ih items h
        simp [List.filter_cons, hc, h1, h2]
      · have hc : containsMp3Str f.name = true :=
          (processFile_ok_some cfg readF f i hp).1
        rcases hbt : buildItems cfg readF t with e2 | its
        · rw [hbt] at h
          exact absurd h (by simp)
        · rw [hbt] at h
          have : items = i :: its := by simpa using h.symm
          subst this
          obtain ⟨h1, h2⟩ := ih its hbt
          obtain ⟨_, notes, date, _, _, hi⟩ := processFile_ok_some cfg readF f i hp
          subst hi
          simp [List.filter_cons, hc, h1, h2, mkItem]

/-- Claim C5 witness at a concrete listing mixing eligible and ineligible
entries. -/
theorem episodes_in_listing_order_witness :
    (itemsOfR (buildItems cfgW readMix filesMix)).map Item.LinkHref
      = (filesMix.filter fun f => containsMp3Str f.name).map
          (fun f => cfgW.PodcastUrl ++ "/download/" ++ f.name) ∧
    (itemsOfR (buildItems cfgW readMix filesMix)).map Item.Title
      = (filesMix.filter fun f => containsMp3Str f.name).map
          (fun f => derivedTitle f.name) :=
  episodes_in_listing_order cfgW readMix filesMix
    (itemsOfR (buildItems cfgW readMix filesMix)) (by decide)

/-- Claim C6 counterexample: `2024-02-02_A_B.mp3` matches
`YYYY-MM-DD_title.mp3` with a valid date and a readable companion, and the
extractor produces exactly one record from it — but the record carries title
`A` instead of the filename's title `A_B`, so the record does not carry "that
title" as the claim states. -/
theorem valid_name_title_counterexample :
    producesRecord (processFile cfgW readAB ⟨"2024-02-02_A_B.mp3", 4⟩) = true ∧
    titleOfR (processFile cfgW readAB ⟨"2024-02-02_A_B.mp3", 4⟩) = "A" ∧
    "A" ≠ "A_B" := by
  decide

/-- Claim C6 (amended): for every entry whose name contains the `.mp3` marker
and an underscore, with a readable companion shownotes file and a valid date
part, the extractor produces exactly one episode record, carrying that date
and the derived title — the segment between the first and second underscore up
to the first `.`, which equals the filename's title only when the latter
contains neither; an entry whose name lacks the `.mp3` marker produces zero
records. -/
theorem valid_name_one_record (cfg : Config) (readF : String → Option String)
    (f : FileEntry) :
    (∀ s1 notes date,
      containsMp3Str f.name = true →
      (goSplit f.name '_').get? 1 = some s1 →
      readF (shownotesPath f.name) = some notes →
      parseDate (dateStrOf f.name) = some date →
      processFile cfg readF f = .ok (some (mkItem cfg f notes date))) ∧
    (containsMp3Str f.name = false → processFile cfg readF f = .ok none) := by
  constructor
  · intro s1 notes date hc hs hn hd
    have hs2 : (goSplit f.name '_')[1]? = some s1 := by simpa using hs
    simp [processFile, hc, hs2, hn, hd]
  · exact processFile_skip cfg readF f

/-- Claim C6 amended-theorem witness: the spec's own §8 scenario filename
yields exactly the record with date 2024-01-15, title `Pilot` and description
`Welcome`, and an ineligible name yields none. -/
theorem valid_name_one_record_witness :
    processFile cfgW readPilot ⟨"2024-01-15_Pilot.mp3", 1000⟩
      = .ok (some (mkItem cfgW ⟨"2024-01-15_Pilot.mp3", 1000⟩ "Welcome" ⟨2024, 1, 15⟩)) ∧
    processFile cfgW readPilot ⟨"notes.txt", 2⟩ = .ok none :=
  ⟨(valid_name_one_record cfgW readPilot ⟨"2024-01-15_Pilot.mp3", 1000⟩).1
      "Pilot.mp3" "Welcome" ⟨2024, 1, 15⟩ (by decide) (by decide) (by decide) (by decide),
   (valid_name_one_record cfgW readPilot ⟨"notes.txt", 2⟩).2 (by decide)⟩

/-- Claim C7: when the directory snapshot contains an eligible audio file (an
underscore-bearing name with the `.mp3` marker) whose companion shownotes file
is missing or unreadable, the rebuild aborts before writing either output and
the previously published `feed.rss` and `feed.json` contents are unchanged. -/
theorem missing_shownotes_aborts (now : Nat) (fs : FS) (files : List FileEntry)
    (f : FileEntry)
    (hdir : fs.podcastDir = some files) (hmem : f ∈ files)
    (hmp3 : containsMp3Str f.name = true)
    (hu : ((goSplit f.name '_').get? 1).isSome = true)
    (hsn : fs.readPodcastFile (shownotesPath f.name) = none) :
    rebuildOk (GenerateRss now fs) = false ∧
    (applyRebuild now fs).feedRss = fs.feedRss ∧
    (applyRebuild now fs).feedJson = fs.feedJson := by
  have herr : ∃ e, GenerateRss now fs = .error e := by
    rcases hcf : fs.configFile with _ | raw | cfg
    · exact ⟨.configUnreadable, by simp [GenerateRss, hcf]⟩
    · exact ⟨.configMalformed, by simp [GenerateRss, hcf]⟩
    · have hpf : processFile cfg fs.readPodcastFile f
          = .error (.shownotesUnreadable f.name) := by
        rcases hg : (goSplit f.name '_').get? 1 with _ | s1
        · rw [hg] at hu
          simp at hu
        · have hg2 : (goSplit f.name '_')[1]? = some s1 := by simpa using hg
          simp [processFile, hmp3, hg2, hsn]
      obtain ⟨e2, h2⟩ :=
        buildItems_error_of_mem cfg fs.readPodcastFile files f _ hmem hpf
      exact ⟨e2, by simp [GenerateRss, hcf, hdir, h2]⟩
  obtain ⟨e, he⟩ := herr
  refine ⟨by simp [rebuildOk, he], ?_, ?_⟩ <;> simp [applyRebuild, he]

/-- Claim C7 witness: a concrete snapshot whose only audio file has no
readable shownotes leaves the previously published outputs untouched. -/
theorem missing_shownotes_aborts_witness :
    rebuildOk (GenerateRss 0 fsNoNotes) = false ∧
    (applyRebuild 0 fsNoNotes).feedRss = fsNoNotes.feedRss ∧
    (applyRebuild 0 fsNoNotes).feedJson = fsNoNotes.feedJson :=
  missing_shownotes_aborts 0 fsNoNotes [⟨"2024-05-05_Ep.mp3", 3⟩]
    ⟨"2024-05-05_Ep.mp3", 3⟩ rfl (by decide) (by decide) (by decide) rfl

/-- Claim C8: an unreadable configuration file fails the rebuild with the
ConfigUnreadable error and a readable but undecodable one with
ConfigMalformed; in both cases no feed is published, no partial or default
configuration is substituted, and the previously published outputs stay
untouched. -/
theorem config_failure_fail_fast (now : Nat) (fs : FS) :
    (fs.configFile = .absent →
      GenerateRss now fs = .error .configUnreadable ∧
      (applyRebuild now fs).feedRss = fs.feedRss ∧
      (applyRebuild now fs).feedJson = fs.feedJson) ∧
    (∀ raw, fs.configFile = .malformed raw →
      GenerateRss now fs = .error .configMalformed ∧
      (applyRebuild now fs).feedRss = fs.feedRss ∧
      (applyRebuild now fs).feedJson = fs.feedJson) := by
  constructor
  · intro h
    have hg : GenerateRss now fs = .error .configUnreadable := by
      simp [GenerateRss, h]
    exact ⟨hg, by simp [applyRebuild, hg], by simp [applyRebuild, hg]⟩
  · intro raw h
    have hg : GenerateRss now fs = .error .configMalformed := by
      simp [GenerateRss, h]
    exact ⟨hg, by simp [applyRebuild, hg], by simp [applyRebuild, hg]⟩

/-- Claim C8 witness at an unreadable and at an undecodable concrete
configuration state. -/
theorem config_failure_fail_fast_witness :
    (GenerateRss 0 fsAbsent = .error .configUnreadable ∧
      (applyRebuild 0 fsAbsent).feedRss = fsAbsent.feedRss ∧
      (applyRebuild 0 fsAbsent).feedJson = fsAbsent.feedJson) ∧
    (GenerateRss 0 fsMalformed = .error .configMalformed ∧
      (applyRebuild 0 fsMalformed).feedRss = fsMalformed.feedRss ∧
      (applyRebuild 0 fsMalformed).feedJson = fsMalformed.feedJson) :=
  ⟨(config_failure_fail_fast 0 fsAbsent).1 rfl,
   (config_failure_fail_fast 0 fsMalformed).2 "oops" rfl⟩

/-- Claim C9: every episode record the extractor constructs from a file named
F of size N under base URL P carries the download link P ++ "/download/" ++ F
both as its link and its enclosure URL, the decimal rendering of N as both
length fields, and the constant `audio/mpeg` MIME type. -/
theorem record_link_length_mime (cfg : Config) (readF : String → Option String)
    (f : FileEntry) (i : Item) (h : processFile cfg readF f = .ok (some i)) :
    i.LinkHref = cfg.PodcastUrl ++ "/download/" ++ f.name ∧
    i.EnclosureUrl = cfg.PodcastUrl ++ "/download/" ++ f.name ∧
    i.LinkLength = Nat.repr f.size ∧
    i.EnclosureLength = Nat.repr f.size ∧
    i.LinkType = "audio/mpeg" ∧
    i.EnclosureType = "audio/mpeg" := by
  obtain ⟨_, notes, date, _, _, hi⟩ := processFile_ok_some cfg readF f i h
  subst hi
  exact ⟨rfl, rfl, rfl, rfl, rfl, rfl⟩

/-- Claim C9 witness at the Pilot record. -/
theorem record_link_length_mime_witness :
    (itemOfR (processFile cfgW readPilot ⟨"2024-01-15_Pilot.mp3", 1000⟩)).LinkHref
      = cfgW.PodcastUrl ++ "/download/" ++ "2024-01-15_Pilot.mp3" ∧
    (itemOfR (processFile cfgW readPilot ⟨"2024-01-15_Pilot.mp3", 1000⟩)).EnclosureUrl
      = cfgW.PodcastUrl ++ "/download/" ++ "2024-01-15_Pilot.mp3" ∧
    (itemOfR (processFile cfgW readPilot ⟨"2024-01-15_Pilot.mp3", 1000⟩)).LinkLength
      = Nat.repr 1000 ∧
    (itemOfR (processFile cfgW readPilot ⟨"2024-01-15_Pilot.mp3", 1000⟩)).EnclosureLength
      = Nat.repr 1000 ∧
    (itemOfR (processFile cfgW readPilot ⟨"2024-01-15_Pilot.mp3", 1000⟩)).LinkType
      = "audio/mpeg" ∧
    (itemOfR (processFile cfgW readPilot ⟨"2024-01-15_Pilot.mp3", 1000⟩)).EnclosureType
      = "audio/mpeg" :=
  record_link_length_mime cfgW readPilot ⟨"2024-01-15_Pilot.mp3", 1000⟩
    (itemOfR (processFile cfgW readPilot ⟨"2024-01-15_Pilot.mp3", 1000⟩)) (by decide)

/-- Claim C10: the two outputs of every successful rebuild are serializations
of the single feed model built in that rebuild, and the feed title, link,
author and the episode sequence (count, order, titles, dates, links, lengths,
descriptions) encoded into `feed.rss` equal those encoded into `feed.json`. -/
theorem rss_json_single_model (now : Nat) (fs : FS) (r j : String)
    (h : GenerateRss now fs = .ok (r, j)) :
    r = renderRss (rssDocOf (builtFeed now fs)) ∧
    j = renderJson (jsonDocOf (builtFeed now fs)) ∧
    docsAgree (builtFeed now fs) := by
  rcases hcf : fs.configFile with _ | raw | cfg
  · simp [GenerateRss, hcf] at h
  · simp [GenerateRss, hcf] at h
  · rcases hpd : fs.podcastDir with _ | files
    · simp [GenerateRss, hcf, hpd] at h
    · rcases hbi : buildItems cfg fs.readPodcastFile files with e | items
      · simp [GenerateRss, hcf, hpd, hbi] at h
      · simp only [GenerateRss, hcf, hpd, hbi] at h
        obtain ⟨hr, hj⟩ : toRss (mkFeed cfg now items) = r
            ∧ toJSON (mkFeed cfg now items) = j := by
          simpa using h
        subst hr
        subst hj
        refine ⟨?_, ?_, docsAgree_of _⟩ <;>
          simp [builtFeed, hcf, hpd, hbi, toRss, toJSON]

set_option maxRecDepth 100000 in
/-- Claim C10 witness at the concrete Pilot rebuild. -/
theorem rss_json_single_model_witness :
    okFst (GenerateRss 5 fsPilot) = renderRss (rssDocOf (builtFeed 5 fsPilot)) ∧
    okSnd (GenerateRss 5 fsPilot) = renderJson (jsonDocOf (builtFeed 5 fsPilot)) ∧
    docsAgree (builtFeed 5 fsPilot) :=
  rss_json_single_model 5 fsPilot
    (okFst (GenerateRss 5 fsPilot)) (okSnd (GenerateRss 5 fsPilot)) (by decide)

end Pogo
